import Mathlib

/-!
Verification of the `diffusers_server` request-to-inference translation layer.

Shallow embedding of `src/python/diffusers_server/pipeline.py` and
`src/python/diffusers_server/server.py`.  External collaborators (torch
hardware probes, the diffusers loaders, the model call itself, PIL's PNG
encoder) are modelled as parameters; everything with decision logic is
translated directly from the Python source.
-/

/-! ## Embedding of `pipeline.py` -/

/-- The three torch dtypes the resolver can produce. -/
inductive TorchDtype where
  | float16
  | bfloat16
  | float32
deriving DecidableEq, Repr

/-- `DiffusersPipeline._resolve_device` (pipeline.py lines 40-50).
`cudaAvailable` and `mpsAvailable` model the `torch.cuda.is_available()` and
`torch.backends.mps.is_available()` hardware probes. -/
def resolve_device (device : String) (cudaAvailable mpsAvailable : Bool) : String :=
  if device ≠ "auto" then device
  else if cudaAvailable then "cuda"
  else if mpsAvailable then "mps"
  else "cpu"

/-- `DiffusersPipeline._resolve_dtype` (pipeline.py lines 52-67); `dev` is the
already-resolved `self.device`. -/
def resolve_dtype (precision : String) (dev : String) : TorchDtype :=
  if precision = "fp16" then TorchDtype.float16
  else if precision = "bf16" then TorchDtype.bfloat16
  else if precision = "fp32" then TorchDtype.float32
  else if precision = "auto" then
    if dev = "cuda" ∨ dev = "mps" then TorchDtype.float16 else TorchDtype.float32
  else TorchDtype.float32

/-- The resolved execution configuration stored on the pipeline object. -/
structure ExecutionConfig where
  device : String
  dtype : TorchDtype
  attention_slicing : Bool
deriving DecidableEq, Repr

/-- The device/dtype resolution performed by `DiffusersPipeline.__init__`
(pipeline.py lines 31-34): the device is resolved first and the dtype
resolution consults the resolved device. -/
def resolveExecutionConfig (device precision : String) (cudaAvailable mpsAvailable : Bool)
    (enable_attention_slicing : Bool) : ExecutionConfig :=
  let dev := resolve_device device cudaAvailable mpsAvailable
  { device := dev
    dtype := resolve_dtype precision dev
    attention_slicing := enable_attention_slicing }

/-- Opaque handle standing for a loaded diffusers pipeline object. -/
structure PipelineHandle where
  id : Nat
deriving DecidableEq, Repr

/-- The environment `DiffusersPipeline._load_pipeline` runs in: whether
`model_index.json` exists at the model path, and the outcomes of the three
external library loaders (`DiffusionPipeline.from_pretrained`,
`StableDiffusionXLPipeline.from_pretrained`,
`StableDiffusionPipeline.from_pretrained`), each of which either returns a
pipeline or raises (modelled as `Except.error` carrying the exception text). -/
structure LoadEnv where
  manifestExists : Bool
  loadGeneric : Except String PipelineHandle
  loadSDXL : Except String PipelineHandle
  loadSD : Except String PipelineHandle

/-- The outer `except` clause of `_load_pipeline` (pipeline.py lines 104-106):
any escaping exception is re-raised as
`RuntimeError("Failed to load diffusers model from <path>: <cause>")`. -/
def wrapLoadFailure (modelPath : String) (r : Except String PipelineHandle) :
    Except String PipelineHandle :=
  match r with
  | Except.ok p => Except.ok p
  | Except.error e =>
      Except.error ("Failed to load diffusers model from " ++ modelPath ++ ": " ++ e)

/-- `DiffusersPipeline._load_pipeline` (pipeline.py lines 69-106): if the
manifest `model_index.json` exists, load via the generic auto-detecting
`DiffusionPipeline`; otherwise try `StableDiffusionXLPipeline` and, if that
raises, `StableDiffusionPipeline`; any exception escaping these attempts is
wrapped by `wrapLoadFailure`. -/
def load_pipeline (modelPath : String) (env : LoadEnv) : Except String PipelineHandle :=
  wrapLoadFailure modelPath
    (if env.manifestExists then
      env.loadGeneric
    else
      match env.loadSDXL with
      | Except.ok p => Except.ok p
      | Except.error _ => env.loadSD)

/-- The keyword arguments `DiffusersPipeline.generate` hands to the underlying
model call (pipeline.py lines 162-175).  `generator = some s` models a
`torch.Generator(...).manual_seed(s)` being included in the kwargs; `none`
models the key being absent (likewise for `negative_prompt`). -/
structure PipelineKwargs where
  prompt : String
  num_images_per_prompt : Nat
  width : Int
  height : Int
  num_inference_steps : Nat
  guidance_scale : Rat
  generator : Option Int
  negative_prompt : Option String
deriving DecidableEq, Repr

/-- The kwargs construction of `DiffusersPipeline.generate` (pipeline.py lines
152-175): a generator is built and passed exactly when a seed is supplied, and
`negative_prompt` is passed exactly when one is supplied. -/
def generate_build_kwargs (prompt : String) (num_images : Nat) (width height : Int)
    (num_inference_steps : Nat) (guidance_scale : Rat) (negative_prompt : Option String)
    (seed : Option Int) : PipelineKwargs :=
  { prompt := prompt
    num_images_per_prompt := num_images
    width := width
    height := height
    num_inference_steps := num_inference_steps
    guidance_scale := guidance_scale
    generator := seed
    negative_prompt := negative_prompt }

/-! ## Python string/int primitives used by `server.py`

`parse_size` relies on `str.lower`, `str.split("x")` and `int(...)`.  These
built-ins are modelled character-faithfully (for the ASCII fragment): Python's
`int` accepts surrounding whitespace, one optional sign, and ASCII digits with
single underscores strictly between digits. -/

/-- ASCII decimal digit test (what `int(...)` accepts as a digit, restricted to
ASCII). -/
def isPyDigit (c : Char) : Bool := decide ('0' ≤ c) && decide (c ≤ '9')

/-- Numeric value of an ASCII digit. -/
def digitVal (c : Char) : Nat := c.toNat - 48

/-- Python whitespace stripped by `int(...)` (ASCII fragment of `str.strip`). -/
def pySpace (c : Char) : Bool :=
  c = ' ' || c = '\t' || c = '\n' || c = '\r' || c = '\x0b' || c = '\x0c'

/-- Continuation of Python's digit-run grammar after at least one digit has
been consumed: `digit (digit | '_' digit)*` — an underscore must sit between
two digits. `acc` is the value of the digits consumed so far. -/
def digitsVal (acc : Nat) : List Char → Option Nat
  | [] => some acc
  | c :: rest =>
    if isPyDigit c then digitsVal (acc * 10 + digitVal c) rest
    else if c = '_' then
      match rest with
      | c2 :: rest2 =>
        if isPyDigit c2 then digitsVal (acc * 10 + digitVal c2) rest2 else none
      | [] => none
    else none

/-- An unsigned Python digit run: nonempty, starts with a digit. -/
def pyUnsignedVal : List Char → Option Nat
  | [] => none
  | c :: rest => if isPyDigit c then digitsVal (digitVal c) rest else none

/-- Strip leading and trailing Python whitespace. -/
def pyStrip (cs : List Char) : List Char :=
  ((cs.dropWhile pySpace).reverse.dropWhile pySpace).reverse

/-- Python's `int(s)` on a string (ASCII fragment): strip whitespace, one
optional `+`/`-` sign, then a digit run with optional single underscores
between digits; `none` models `ValueError`. -/
def pyInt (cs : List Char) : Option Int :=
  if (pyStrip cs).head? = some '+' then
    (pyUnsignedVal (pyStrip cs).tail).map (fun n => (n : Int))
  else if (pyStrip cs).head? = some '-' then
    (pyUnsignedVal (pyStrip cs).tail).map (fun n => -(n : Int))
  else (pyUnsignedVal (pyStrip cs)).map (fun n => (n : Int))

/-- Python's `s.split(sep)` for a single-character separator: split at every
occurrence, keeping empty pieces (`"".split("x") == [""]`,
`"x".split("x") == ["", ""]`). -/
def pySplit (sep : Char) : List Char → List (List Char)
  | [] => [[]]
  | c :: rest =>
    if c = sep then [] :: pySplit sep rest
    else
      match pySplit sep rest with
      | g :: gs => (c :: g) :: gs
      | [] => [[c]]

/-- ASCII `str.lower` on one character (the fragment of Python's `lower`
relevant here). -/
def pyLowerChar (c : Char) : Char :=
  if decide ('A' ≤ c) && decide (c ≤ 'Z') then Char.ofNat (c.toNat + 32) else c

/-- `parse_size` (server.py lines 68-77): lower-case the string, split on
`"x"`, require exactly two parts, parse both with `int`; every failure raises
`ValueError("Invalid size format: <size>")` (the inner `ValueError` from
`int` is caught and re-raised with this message). -/
def parse_size (size : String) : Except String (Int × Int) :=
  match pySplit 'x' (size.toList.map pyLowerChar) with
  | [a, b] =>
    match pyInt a, pyInt b with
    | some w, some h => Except.ok (w, h)
    | _, _ => Except.error ("Invalid size format: " ++ size)
  | _ => Except.error ("Invalid size format: " ++ size)

deriving instance DecidableEq for Except

/-! ## Embedding of `server.py` -/

/-- `ImageGenerationRequest` (server.py lines 26-35), after pydantic has
applied the field defaults.  The pydantic bound `n : ge 1, le 10` is a
validation constraint checked before the handler runs; it appears as a
hypothesis where a claim needs it. -/
structure ImageGenerationRequest where
  model : String
  prompt : String
  n : Nat := 1
  size : String := "1024x1024"
  quality : String := "standard"
  response_format : String := "b64_json"
  style : String := "vivid"
deriving DecidableEq, Repr

/-- `ImageData` (server.py lines 38-43). -/
structure ImageData where
  url : Option String := none
  b64_json : Option String := none
  revised_prompt : Option String := none
deriving DecidableEq, Repr

/-- `ImageGenerationResponse` (server.py lines 46-50). -/
structure ImageGenerationResponse where
  created : Nat
  data : List ImageData
deriving DecidableEq, Repr

/-- A generated image, modelled by the bytes PIL's `img.save(buffer,
format="PNG")` writes for it (the PNG encoder itself is an external
collaborator; its output bytes are what the server observes). -/
structure Image where
  pngBytes : List Nat
deriving DecidableEq, Repr

/-- Base64 alphabet lookup (`base64.b64encode`). -/
def b64Char (n : Nat) : Char :=
  "ABCDEFGHIJKLMNOPQRSTUVWXYZabcdefghijklmnopqrstuvwxyz0123456789+/".toList.getD n '='

/-- Standard base64 encoding of a byte list (`base64.b64encode(...)` followed
by `.decode("utf-8")`, server.py line 122). -/
def base64Encode : List Nat → List Char
  | b1 :: b2 :: b3 :: rest =>
    b64Char (b1 / 4) :: b64Char (b1 % 4 * 16 + b2 / 16) ::
      b64Char (b2 % 16 * 4 + b3 / 64) :: b64Char (b3 % 64) :: base64Encode rest
  | [b1, b2] => [b64Char (b1 / 4), b64Char (b1 % 4 * 16 + b2 / 16), b64Char (b2 % 16 * 4), '=']
  | [b1] => [b64Char (b1 / 4), b64Char (b1 % 4 * 16), '=', '=']
  | [] => []

/-- The base64-PNG encoding of one image (server.py lines 120-123). -/
def encodeImage (img : Image) : ImageData :=
  { b64_json := some (String.mk (base64Encode img.pngBytes)) }

/-- The exact arguments the handler passes to `_pipeline.generate`
(server.py lines 104-110): only these five keywords appear at the call
site. -/
structure GenerateCall where
  prompt : String
  num_images : Nat
  width : Int
  height : Int
  num_inference_steps : Nat
deriving DecidableEq, Repr

/-- The kwargs `DiffusersPipeline.generate` builds for a call made from the
server handler: the remaining parameters take the defaults of `generate`'s
signature (pipeline.py lines 126-135): `guidance_scale=7.5`,
`negative_prompt=None`, `seed=None`. -/
def serverCallKwargs (c : GenerateCall) : PipelineKwargs :=
  generate_build_kwargs c.prompt c.num_images c.width c.height c.num_inference_steps
    (15 / 2 : Rat) none none

/-- The server-process state the handler reads: whether `_pipeline` is loaded
and the `_served_model_names` list. -/
structure ServerState where
  pipelineLoaded : Bool
  servedModelNames : List String
deriving DecidableEq, Repr

/-- Python `repr` of a string (as interpolated by the f-string in the 404
detail), for names without quotes or escapes. -/
def pyStrRepr (s : String) : String := "\x27" ++ s ++ "\x27"

/-- Python `repr` of a list of strings (how `f"{_served_model_names}"`
renders the list). -/
def pyListRepr (l : List String) : String :=
  "[" ++ String.intercalate ", " (l.map pyStrRepr) ++ "]"

/-- Outcome of one handler run: a 200 response body, or an `HTTPException`
with status code and detail. -/
inductive HandlerResult where
  | ok (resp : ImageGenerationResponse)
  | httpError (status : Nat) (detail : String)
deriving DecidableEq, Repr

/-- The response-encoding loop (server.py lines 116-129): walk the images in
order; for each, if `response_format == "b64_json"` append its base64-PNG
entry, otherwise raise 400 on the spot. -/
def encodeImages (fmt : String) : List Image → Except (Nat × String) (List ImageData)
  | [] => Except.ok []
  | img :: rest =>
    if fmt = "b64_json" then
      match encodeImages fmt rest with
      | Except.ok ds => Except.ok (encodeImage img :: ds)
      | Except.error e => Except.error e
    else
      Except.error (400, "response_format \x27url\x27 not supported, use \x27b64_json\x27")

/-- The generation-and-response tail of the handler (server.py lines
103-134): invoke `_pipeline.generate` (500 on exception), then encode and
build the 200 response. -/
def generate_images_invoke (gen : GenerateCall → Except String (List Image)) (now : Nat)
    (fmt : String) (call : GenerateCall) : HandlerResult × List GenerateCall :=
  match gen call with
  | Except.error e => (HandlerResult.httpError 500 e, [call])
  | Except.ok images =>
    match encodeImages fmt images with
    | Except.error (status, detail) => (HandlerResult.httpError status detail, [call])
    | Except.ok data => (HandlerResult.ok { created := now, data := data }, [call])

/-- The `generate_images` handler (server.py lines 80-134).  `gen` models the
opaque `_pipeline.generate` collaborator (its exceptions as `Except.error`),
`now` models `int(time.time())` at response time.  Besides the HTTP outcome,
the embedding returns the list of calls made to `gen`, so that claims about
the runtime being (or not being) invoked are statable. -/
def generate_images (st : ServerState) (gen : GenerateCall → Except String (List Image))
    (now : Nat) (req : ImageGenerationRequest) : HandlerResult × List GenerateCall :=
  if st.pipelineLoaded = false then
    (HandlerResult.httpError 503 "Model not loaded", [])
  else if st.servedModelNames ≠ [] ∧ req.model ∉ st.servedModelNames then
    (HandlerResult.httpError 404
      ("Model \x27" ++ req.model ++ "\x27 not found. Available: " ++
        pyListRepr st.servedModelNames), [])
  else
    match parse_size req.size with
    | Except.error e => (HandlerResult.httpError 400 e, [])
    | Except.ok (width, height) =>
      generate_images_invoke gen now req.response_format
        { prompt := req.prompt
          num_images := req.n
          width := width
          height := height
          num_inference_steps := if req.quality = "hd" then 50 else 30 }

/-! ## Spec-side definitions

These follow the spec's words (a strict `<int>` literal), to be compared with
the source-derived `parse_size`. -/

/-- Spec-side: a strict `<int>` literal — an optional minus sign followed by
one or more ASCII digits, nothing else. -/
def isStrictInt (cs : List Char) : Bool :=
  if cs.head? = some '-' then !cs.tail.isEmpty && cs.tail.all isPyDigit
  else !cs.isEmpty && cs.all isPyDigit

/-- Decimal value of a digit run. -/
def digitsNat (cs : List Char) : Nat :=
  cs.foldl (fun acc c => acc * 10 + digitVal c) 0

/-- Spec-side numeric value of a strict `<int>` literal. -/
def strictIntVal (cs : List Char) : Int :=
  if cs.head? = some '-' then -(digitsNat cs.tail : Int) else (digitsNat cs : Int)

/-! ## Helper lemmas -/

theorem isPyDigit_ne {c d : Char} (h : isPyDigit c = true) (hd : isPyDigit d = false) :
    c ≠ d := by
  intro hcd
  subst hcd
  rw [h] at hd
  exact Bool.noConfusion hd

theorem digit_not_space {c : Char} (h : isPyDigit c = true) : pySpace c = false := by
  by_contra hns
  have hs : pySpace c = true := by
    cases hpc : pySpace c
    · exact absurd hpc hns
    · rfl
  unfold pySpace at hs
  simp only [Bool.or_eq_true, decide_eq_true_eq] at hs
  rcases hs with ((((hc | hc) | hc) | hc) | hc) | hc <;> subst hc <;>
    exact absurd h (by decide)

theorem digitsVal_all_digits :
    ∀ (l : List Char) (acc : Nat), l.all isPyDigit = true →
      digitsVal acc l = some (l.foldl (fun a c => a * 10 + digitVal c) acc) := by
  intro l
  induction l with
  | nil => intro acc _; rfl
  | cons c rest ih =>
    intro acc h
    simp only [List.all_cons, Bool.and_eq_true] at h
    rw [digitsVal.eq_def]
    simp only []
    rw [if_pos h.1, List.foldl_cons]
    exact ih _ h.2

theorem pyUnsignedVal_all_digits (l : List Char) (hne : l ≠ []) (h : l.all isPyDigit = true) :
    pyUnsignedVal l = some (digitsNat l) := by
  cases l with
  | nil => exact absurd rfl hne
  | cons c rest =>
    simp only [List.all_cons, Bool.and_eq_true] at h
    simp only [pyUnsignedVal, h.1, if_true]
    rw [digitsVal_all_digits rest (digitVal c) h.2]
    simp [digitsNat, List.foldl_cons]

theorem dropWhile_of_no_space (l : List Char) (h : ∀ c ∈ l, pySpace c = false) :
    l.dropWhile pySpace = l := by
  cases l with
  | nil => rfl
  | cons c rest =>
    rw [List.dropWhile_cons]
    simp [h c (List.mem_cons_self c rest)]

theorem pyStrip_of_no_space (l : List Char) (h : ∀ c ∈ l, pySpace c = false) :
    pyStrip l = l := by
  unfold pyStrip
  rw [dropWhile_of_no_space l h]
  rw [dropWhile_of_no_space l.reverse (by intro c hc; exact h c (List.mem_reverse.mp hc))]
  exact List.reverse_reverse l

theorem ne_nil_of_isEmpty_false {α : Type} {l : List α} (h : l.isEmpty = false) : l ≠ [] := by
  intro hnil
  subst hnil
  simp at h

/-- A strict `<int>` literal is either a minus sign followed by a nonempty
digit run, or a nonempty digit run. -/
theorem isStrictInt_cases {cs : List Char} (h : isStrictInt cs = true) :
    (∃ rest, cs = '-' :: rest ∧ rest ≠ [] ∧ rest.all isPyDigit = true) ∨
    (cs ≠ [] ∧ cs.all isPyDigit = true) := by
  unfold isStrictInt at h
  by_cases hh : cs.head? = some '-'
  · cases cs with
    | nil => simp at hh
    | cons c0 rest =>
      simp only [List.head?_cons, Option.some.injEq] at hh
      subst hh
      rw [if_pos (by simp)] at h
      simp only [List.tail_cons, Bool.and_eq_true, Bool.not_eq_true'] at h
      exact Or.inl ⟨rest, rfl, ne_nil_of_isEmpty_false h.1, h.2⟩
  · rw [if_neg hh] at h
    simp only [Bool.and_eq_true, Bool.not_eq_true'] at h
    exact Or.inr ⟨ne_nil_of_isEmpty_false h.1, h.2⟩

theorem strictInt_no_space {cs : List Char} (h : isStrictInt cs = true) :
    ∀ c ∈ cs, pySpace c = false := by
  intro c hc
  rcases isStrictInt_cases h with ⟨rest, hcs, _, hall⟩ | ⟨_, hall⟩
  · subst hcs
    rcases List.mem_cons.mp hc with hcc | hcc
    · subst hcc; decide
    · exact digit_not_space (List.all_eq_true.mp hall c hcc)
  · exact digit_not_space (List.all_eq_true.mp hall c hc)

theorem pyInt_strict {cs : List Char} (h : isStrictInt cs = true) :
    pyInt cs = some (strictIntVal cs) := by
  have hstrip : pyStrip cs = cs := pyStrip_of_no_space cs (strictInt_no_space h)
  unfold pyInt strictIntVal
  rw [hstrip]
  rcases isStrictInt_cases h with ⟨rest, hcs, hne, hall⟩ | ⟨hne, hall⟩
  · subst hcs
    rw [if_neg (by simp), if_pos (by simp), if_pos (by simp)]
    simp only [List.tail_cons]
    rw [pyUnsignedVal_all_digits rest hne hall]
    rfl
  · obtain ⟨c0, rest, rfl⟩ : ∃ c0 rest, cs = c0 :: rest := by
      cases cs with
      | nil => exact absurd rfl hne
      | cons c0 rest => exact ⟨c0, rest, rfl⟩
    have hd0 : isPyDigit c0 = true :=
      List.all_eq_true.mp hall c0 (List.mem_cons_self c0 rest)
    have hp : ¬ c0 = '+' := isPyDigit_ne hd0 (by decide)
    have hm : ¬ c0 = '-' := isPyDigit_ne hd0 (by decide)
    rw [if_neg (by simp [hp]), if_neg (by simp [hm]), if_neg (by simp [hm])]
    rw [pyUnsignedVal_all_digits (c0 :: rest) hne hall]
    rfl

theorem strictInt_ne_x {cs : List Char} (h : isStrictInt cs = true) :
    ∀ c ∈ cs, c ≠ 'x' := by
  intro c hc
  rcases isStrictInt_cases h with ⟨rest, hcs, _, hall⟩ | ⟨_, hall⟩
  · subst hcs
    rcases List.mem_cons.mp hc with hcc | hcc
    · subst hcc; decide
    · exact isPyDigit_ne (List.all_eq_true.mp hall c hcc) (by decide)
  · exact isPyDigit_ne (List.all_eq_true.mp hall c hc) (by decide)

theorem pySplit_ne_nil (sep : Char) (l : List Char) : pySplit sep l ≠ [] := by
  induction l with
  | nil => simp [pySplit]
  | cons c rest ih =>
    unfold pySplit
    by_cases hc : c = sep
    · simp [hc]
    · rw [if_neg hc]
      cases hrec : pySplit sep rest with
      | nil => simp
      | cons g gs => simp

theorem pySplit_no_sep (sep : Char) (b : List Char) (h : ∀ c ∈ b, c ≠ sep) :
    pySplit sep b = [b] := by
  induction b with
  | nil => rfl
  | cons c rest ih =>
    unfold pySplit
    rw [if_neg (h c (List.mem_cons_self c rest))]
    rw [ih (fun c hc => h c (List.mem_cons_of_mem _ hc))]

theorem pySplit_append (sep : Char) (a b : List Char) (h : ∀ c ∈ a, c ≠ sep) :
    pySplit sep (a ++ sep :: b) = a :: pySplit sep b := by
  induction a with
  | nil =>
    simp only [List.nil_append]
    rw [pySplit.eq_def]
    simp only []
    rw [if_pos trivial]
  | cons c a' ih =>
    simp only [List.cons_append]
    rw [pySplit.eq_def]
    simp only []
    rw [if_neg (h c (List.mem_cons_self c a'))]
    rw [ih (fun c hc => h c (List.mem_cons_of_mem _ hc))]

theorem pySplit_length (sep : Char) (l : List Char) :
    (pySplit sep l).length = l.count sep + 1 := by
  induction l with
  | nil => simp [pySplit]
  | cons c rest ih =>
    unfold pySplit
    by_cases hc : c = sep
    · subst hc
      rw [if_pos rfl]
      simp [ih, List.count_cons]
    · rw [if_neg hc]
      cases hrec : pySplit sep rest with
      | nil => exact absurd hrec (pySplit_ne_nil sep rest)
      | cons g gs =>
        have := ih
        rw [hrec] at this
        simp only [List.length_cons] at this ⊢
        rw [List.count_cons]
        simp [hc, this]

theorem encodeImages_error (fmt : String) (imgs : List Image) (e : Nat × String)
    (h : encodeImages fmt imgs = Except.error e) :
    e = (400, "response_format \x27url\x27 not supported, use \x27b64_json\x27") := by
  induction imgs with
  | nil => exact absurd h (by simp [encodeImages])
  | cons img rest ih =>
    unfold encodeImages at h
    by_cases hf : fmt = "b64_json"
    · rw [if_pos hf] at h
      cases hrec : encodeImages fmt rest with
      | ok ds => rw [hrec] at h; exact absurd h (by simp)
      | error e2 =>
        rw [hrec] at h
        cases h
        exact ih hrec
    · rw [if_neg hf] at h
      cases h
      rfl

theorem encodeImages_ok (fmt : String) (imgs : List Image) (ds : List ImageData)
    (h : encodeImages fmt imgs = Except.ok ds) :
    ds = imgs.map encodeImage := by
  induction imgs generalizing ds with
  | nil => cases h; rfl
  | cons img rest ih =>
    unfold encodeImages at h
    by_cases hf : fmt = "b64_json"
    · rw [if_pos hf] at h
      cases hrec : encodeImages fmt rest with
      | ok ds2 =>
        rw [hrec] at h
        cases h
        rw [List.map_cons, ih ds2 hrec]
      | error e2 => rw [hrec] at h; exact absurd h (by simp)
    · rw [if_neg hf] at h
      exact absurd h (by simp)

theorem encodeImages_unsupported (fmt : String) (imgs : List Image)
    (hf : fmt ≠ "b64_json") (hne : imgs ≠ []) :
    encodeImages fmt imgs =
      Except.error (400, "response_format \x27url\x27 not supported, use \x27b64_json\x27") := by
  cases imgs with
  | nil => exact absurd rfl hne
  | cons img rest =>
    unfold encodeImages
    rw [if_neg hf]

/-- `generate_images` when the runtime is not loaded (server.py lines 85-86). -/
theorem generate_images_not_loaded (st : ServerState)
    (gen : GenerateCall → Except String (List Image)) (now : Nat)
    (req : ImageGenerationRequest) (h1 : st.pipelineLoaded = false) :
    generate_images st gen now req = (HandlerResult.httpError 503 "Model not loaded", []) := by
  unfold generate_images
  rw [if_pos h1]

/-- `generate_images` when the model-name check fails (server.py lines 88-93). -/
theorem generate_images_unknown_model (st : ServerState)
    (gen : GenerateCall → Except String (List Image)) (now : Nat)
    (req : ImageGenerationRequest) (h1 : ¬ st.pipelineLoaded = false)
    (h2 : st.servedModelNames ≠ [] ∧ req.model ∉ st.servedModelNames) :
    generate_images st gen now req =
      (HandlerResult.httpError 404
        ("Model \x27" ++ req.model ++ "\x27 not found. Available: " ++
          pyListRepr st.servedModelNames), []) := by
  unfold generate_images
  rw [if_neg h1, if_pos h2]

/-- `generate_images` when size parsing fails (server.py lines 95-98). -/
theorem generate_images_bad_size (st : ServerState)
    (gen : GenerateCall → Except String (List Image)) (now : Nat)
    (req : ImageGenerationRequest) (e : String) (h1 : ¬ st.pipelineLoaded = false)
    (h2 : ¬ (st.servedModelNames ≠ [] ∧ req.model ∉ st.servedModelNames))
    (hps : parse_size req.size = Except.error e) :
    generate_images st gen now req = (HandlerResult.httpError 400 e, []) := by
  unfold generate_images
  rw [if_neg h1, if_neg h2, hps]

/-- `generate_images` when all checks pass: it invokes the runtime with the
parsed width/height and quality-mapped step count. -/
theorem generate_images_ok_case (st : ServerState)
    (gen : GenerateCall → Except String (List Image)) (now : Nat)
    (req : ImageGenerationRequest) (w h : Int) (h1 : ¬ st.pipelineLoaded = false)
    (h2 : ¬ (st.servedModelNames ≠ [] ∧ req.model ∉ st.servedModelNames))
    (hps : parse_size req.size = Except.ok (w, h)) :
    generate_images st gen now req =
      generate_images_invoke gen now req.response_format
        { prompt := req.prompt, num_images := req.n, width := w, height := h,
          num_inference_steps := if req.quality = "hd" then 50 else 30 } := by
  unfold generate_images
  rw [if_neg h1, if_neg h2, hps]

theorem generate_images_invoke_gen_error (gen : GenerateCall → Except String (List Image))
    (now : Nat) (fmt : String) (call : GenerateCall) (e : String)
    (hg : gen call = Except.error e) :
    generate_images_invoke gen now fmt call = (HandlerResult.httpError 500 e, [call]) := by
  unfold generate_images_invoke
  rw [hg]

theorem generate_images_invoke_encode_error (gen : GenerateCall → Except String (List Image))
    (now : Nat) (fmt : String) (call : GenerateCall) (images : List Image) (s : Nat) (d : String)
    (hg : gen call = Except.ok images) (he : encodeImages fmt images = Except.error (s, d)) :
    generate_images_invoke gen now fmt call = (HandlerResult.httpError s d, [call]) := by
  unfold generate_images_invoke
  rw [hg]
  simp only []
  rw [he]

theorem generate_images_invoke_encode_ok (gen : GenerateCall → Except String (List Image))
    (now : Nat) (fmt : String) (call : GenerateCall) (images : List Image) (ds : List ImageData)
    (hg : gen call = Except.ok images) (he : encodeImages fmt images = Except.ok ds) :
    generate_images_invoke gen now fmt call =
      (HandlerResult.ok { created := now, data := ds }, [call]) := by
  unfold generate_images_invoke
  rw [hg]
  simp only []
  rw [he]

/-- The invoke stage always makes exactly the one call it was given. -/
theorem generate_images_invoke_trace (gen : GenerateCall → Except String (List Image))
    (now : Nat) (fmt : String) (call : GenerateCall) :
    (generate_images_invoke gen now fmt call).2 = [call] := by
  cases hg : gen call with
  | error e => rw [generate_images_invoke_gen_error gen now fmt call e hg]
  | ok images =>
    cases he : encodeImages fmt images with
    | error e =>
      obtain ⟨s, d⟩ := e
      rw [generate_images_invoke_encode_error gen now fmt call images s d hg he]
    | ok ds => rw [generate_images_invoke_encode_ok gen now fmt call images ds hg he]

/-- Shape of the call trace the handler produces: either no call to the
runtime was made, or exactly one call carrying the request's prompt, `n`,
the parsed width/height and the quality-mapped step count. -/
theorem generate_images_trace (st : ServerState)
    (gen : GenerateCall → Except String (List Image)) (now : Nat)
    (req : ImageGenerationRequest) :
    (generate_images st gen now req).2 = [] ∨
    ∃ w h, parse_size req.size = Except.ok (w, h) ∧
      (generate_images st gen now req).2 =
        [{ prompt := req.prompt, num_images := req.n, width := w, height := h,
           num_inference_steps := if req.quality = "hd" then 50 else 30 }] := by
  by_cases h1 : st.pipelineLoaded = false
  · left
    rw [generate_images_not_loaded st gen now req h1]
  · by_cases h2 : st.servedModelNames ≠ [] ∧ req.model ∉ st.servedModelNames
    · left
      rw [generate_images_unknown_model st gen now req h1 h2]
    · cases hps : parse_size req.size with
      | error e =>
        left
        rw [generate_images_bad_size st gen now req e h1 h2 hps]
      | ok wh =>
        obtain ⟨w, h⟩ := wh
        right
        refine ⟨w, h, rfl, ?_⟩
        rw [generate_images_ok_case st gen now req w h h1 h2 hps]
        exact generate_images_invoke_trace gen now req.response_format _

/-! ## Claims -/

/-- Claim C1 is false on the code at this input: a request with
`response_format = "url"` that passes the readiness, model-name and size
checks gets the 400 response, but the runtime `generate` HAS been invoked
first — the call trace is nonempty (the format check sits inside the
per-image encoding loop, after generation). -/
theorem C1_counterexample :
    (generate_images { pipelineLoaded := true, servedModelNames := ["m1"] }
        (fun _ => Except.ok [{ pngBytes := [137] }]) 0
        { model := "m1", prompt := "a cat", n := 1, size := "512x512",
          quality := "standard", response_format := "url", style := "vivid" }).1 =
      HandlerResult.httpError 400
        "response_format \x27url\x27 not supported, use \x27b64_json\x27" ∧
    (generate_images { pipelineLoaded := true, servedModelNames := ["m1"] }
        (fun _ => Except.ok [{ pngBytes := [137] }]) 0
        { model := "m1", prompt := "a cat", n := 1, size := "512x512",
          quality := "standard", response_format := "url", style := "vivid" }).2 =
      [{ prompt := "a cat", num_images := 1, width := 512, height := 512,
         num_inference_steps := 30 }] := by
  decide

/-- Claim C1 (amended): for every request whose `response_format` is not
`"b64_json"` and that passes the readiness, model-name and size checks, the
handler responds 400 — provided the runtime call succeeds and yields at least
one image — and Model Runtime `generate` IS invoked before the format check
(the generation work is wasted). -/
theorem C1_unsupported_format (st : ServerState)
    (gen : GenerateCall → Except String (List Image)) (now : Nat)
    (req : ImageGenerationRequest) (w h : Int) (imgs : List Image)
    (h1 : ¬ st.pipelineLoaded = false)
    (h2 : ¬ (st.servedModelNames ≠ [] ∧ req.model ∉ st.servedModelNames))
    (hps : parse_size req.size = Except.ok (w, h))
    (hfmt : req.response_format ≠ "b64_json")
    (hgen : ∀ c, gen c = Except.ok imgs)
    (himgs : imgs ≠ []) :
    (generate_images st gen now req).1 =
      HandlerResult.httpError 400
        "response_format \x27url\x27 not supported, use \x27b64_json\x27" ∧
    (generate_images st gen now req).2 ≠ [] := by
  rw [generate_images_ok_case st gen now req w h h1 h2 hps]
  rw [generate_images_invoke_encode_error gen now req.response_format _ imgs 400
        "response_format \x27url\x27 not supported, use \x27b64_json\x27" (hgen _)
        (encodeImages_unsupported req.response_format imgs hfmt himgs)]
  exact ⟨rfl, by simp⟩

theorem C1_witness :
    (generate_images { pipelineLoaded := true, servedModelNames := [] }
        (fun _ => Except.ok [{ pngBytes := [1] }]) 3
        { model := "m", prompt := "p", n := 1, size := "64x64",
          quality := "standard", response_format := "url", style := "vivid" }).1 =
      HandlerResult.httpError 400
        "response_format \x27url\x27 not supported, use \x27b64_json\x27" ∧
    (generate_images { pipelineLoaded := true, servedModelNames := [] }
        (fun _ => Except.ok [{ pngBytes := [1] }]) 3
        { model := "m", prompt := "p", n := 1, size := "64x64",
          quality := "standard", response_format := "url", style := "vivid" }).2 ≠ [] :=
  C1_unsupported_format { pipelineLoaded := true, servedModelNames := [] }
    (fun _ => Except.ok [{ pngBytes := [1] }]) 3
    { model := "m", prompt := "p", n := 1, size := "64x64",
      quality := "standard", response_format := "url", style := "vivid" }
    64 64 [{ pngBytes := [1] }]
    (by decide) (by decide) (by decide) (by decide) (fun c => rfl) (by decide)

/-- Claim C2 is false on the code at this input: `"1_2x3"` is not of the form
`<int>x<int>` (its unique split at the single `x` has first part `1_2`, which
is not an integer literal), yet `parse_size` accepts it and returns (12, 3) —
Python's `int` tolerates underscore digit separators. -/
theorem C2_counterexample :
    parse_size "1_2x3" = Except.ok (12, 3) ∧
    pySplit 'x' ("1_2x3".toList.map pyLowerChar) = [['1', '_', '2'], ['3']] ∧
    isStrictInt ['1', '_', '2'] = false ∧
    ("1_2x3".toList.map pyLowerChar).count 'x' = 1 := by
  decide

/-- Claim C2 (amended): for every string of the form `<int>x<int>`
(case-insensitive, exactly one `x`, both parts integer literals), `parse_size`
returns exactly that (width, height) pair; every failure message is
`"Invalid size format: <s>"`, which includes the offending string; strings
whose lower-cased form does not split at `x` into exactly two parts fail, and
so do strings whose two parts are not both accepted by Python's `int` — but
`int`'s leniency (whitespace, a leading `+`, underscore separators) means some
strings not of the strict form are still accepted. -/
theorem C2_parse_size_amended :
    (∀ (s : String) (a b : List Char),
      s.toList.map pyLowerChar = a ++ 'x' :: b →
      isStrictInt a = true → isStrictInt b = true →
      parse_size s = Except.ok (strictIntVal a, strictIntVal b)) ∧
    (∀ (s msg : String),
      parse_size s = Except.error msg → msg = "Invalid size format: " ++ s) ∧
    (∀ s : String, (s.toList.map pyLowerChar).count 'x' ≠ 1 →
      parse_size s = Except.error ("Invalid size format: " ++ s)) ∧
    (∀ (s : String) (a b : List Char),
      pySplit 'x' (s.toList.map pyLowerChar) = [a, b] →
      pyInt a = none ∨ pyInt b = none →
      parse_size s = Except.error ("Invalid size format: " ++ s)) := by
  refine ⟨?_, ?_, ?_, ?_⟩
  · intro s a b hmap ha hb
    unfold parse_size
    rw [hmap, pySplit_append 'x' a b (strictInt_ne_x ha),
      pySplit_no_sep 'x' b (strictInt_ne_x hb)]
    simp only []
    rw [pyInt_strict ha, pyInt_strict hb]
  · intro s msg h
    unfold parse_size at h
    split at h
    · split at h
      · exact absurd h (by simp)
      · injection h with h2
        exact h2.symm
    · injection h with h2
      exact h2.symm
  · intro s hcount
    have hlen : (pySplit 'x' (s.toList.map pyLowerChar)).length ≠ 2 := by
      rw [pySplit_length]
      omega
    unfold parse_size
    split
    · rename_i a b heq
      rw [heq] at hlen
      exact absurd rfl hlen
    · rfl
  · intro s a b hsp hnone
    unfold parse_size
    rw [hsp]
    simp only []
    rcases hnone with hna | hnb
    · rw [hna]
    · rw [hnb]
      cases ha2 : pyInt a <;> rfl

theorem C2_witness : parse_size "10X20" = Except.ok (10, 20) := by
  rw [C2_parse_size_amended.1 "10X20" ['1', '0'] ['2', '0'] (by decide) (by decide) (by decide)]
  decide

/-- `_resolve_dtype` at an `auto` hint picks fp16 exactly on cuda/mps. -/
theorem resolve_dtype_auto (dev : String) :
    resolve_dtype "auto" dev =
      if dev = "cuda" ∨ dev = "mps" then TorchDtype.float16 else TorchDtype.float32 := by
  unfold resolve_dtype
  rw [if_neg (by decide), if_neg (by decide), if_neg (by decide), if_pos rfl]

/-- Claim C3 is false on the code at this input: device hint `cpu` with
precision hint `fp16` resolves to the pair (cpu, fp16) — an explicit fp16
hint is honored unconditionally, with no device check. -/
theorem C3_counterexample :
    (resolveExecutionConfig "cpu" "fp16" false false false).device = "cpu" ∧
    (resolveExecutionConfig "cpu" "fp16" false false false).dtype = TorchDtype.float16 := by
  decide

/-- Claim C3 (amended): with the `auto` precision hint, the resolved config
never pairs fp16 with the cpu device — fp16 is auto-chosen only when the
resolved device is cuda or mps.  (An explicit `fp16` hint is honored even on
cpu, which is what falsifies the original claim.) -/
theorem C3_auto_precision (device : String) (cuda mps slicing : Bool)
    (h : (resolveExecutionConfig device "auto" cuda mps slicing).dtype = TorchDtype.float16) :
    (resolveExecutionConfig device "auto" cuda mps slicing).device = "cuda" ∨
    (resolveExecutionConfig device "auto" cuda mps slicing).device = "mps" := by
  have ht : (resolveExecutionConfig device "auto" cuda mps slicing).dtype =
      resolve_dtype "auto" (resolve_device device cuda mps) := rfl
  have hd : (resolveExecutionConfig device "auto" cuda mps slicing).device =
      resolve_device device cuda mps := rfl
  rw [ht, resolve_dtype_auto] at h
  rw [hd]
  by_cases hc : resolve_device device cuda mps = "cuda" ∨ resolve_device device cuda mps = "mps"
  · exact hc
  · rw [if_neg hc] at h
    exact absurd h (by decide)

theorem C3_witness :
    (resolveExecutionConfig "auto" "auto" true false false).device = "cuda" ∨
    (resolveExecutionConfig "auto" "auto" true false false).device = "mps" :=
  C3_auto_precision "auto" true false false (by decide)

/-- Claim C4: precision resolution maps `fp16`/`bf16`/`fp32` hints directly to
the corresponding numeric type; `auto` yields fp16 exactly when the resolved
device is cuda or mps, else fp32; any other hint silently yields fp32. -/
theorem C4_resolve_dtype_cases (precision dev : String) :
    (precision = "fp16" → resolve_dtype precision dev = TorchDtype.float16) ∧
    (precision = "bf16" → resolve_dtype precision dev = TorchDtype.bfloat16) ∧
    (precision = "fp32" → resolve_dtype precision dev = TorchDtype.float32) ∧
    (precision = "auto" → resolve_dtype precision dev =
      if dev = "cuda" ∨ dev = "mps" then TorchDtype.float16 else TorchDtype.float32) ∧
    (precision ≠ "fp16" → precision ≠ "bf16" → precision ≠ "fp32" → precision ≠ "auto" →
      resolve_dtype precision dev = TorchDtype.float32) := by
  refine ⟨?_, ?_, ?_, ?_, ?_⟩
  · intro h
    subst h
    unfold resolve_dtype
    rw [if_pos rfl]
  · intro h
    subst h
    unfold resolve_dtype
    rw [if_neg (by decide), if_pos rfl]
  · intro h
    subst h
    unfold resolve_dtype
    rw [if_neg (by decide), if_neg (by decide), if_pos rfl]
  · intro h
    subst h
    exact resolve_dtype_auto dev
  · intro h1 h2 h3 h4
    unfold resolve_dtype
    rw [if_neg h1, if_neg h2, if_neg h3, if_neg h4]

theorem C4_witness : resolve_dtype "half" "cpu" = TorchDtype.float32 :=
  (C4_resolve_dtype_cases "half" "cpu").2.2.2.2 (by decide) (by decide) (by decide) (by decide)

/-- Claim C5: every call the handler makes to the runtime carries exactly 50
inference steps when the request's quality is `"hd"` and exactly 30 for every
other quality value. -/
theorem C5_quality_steps (st : ServerState)
    (gen : GenerateCall → Except String (List Image)) (now : Nat)
    (req : ImageGenerationRequest) (call : GenerateCall)
    (h : call ∈ (generate_images st gen now req).2) :
    call.num_inference_steps = if req.quality = "hd" then 50 else 30 := by
  rcases generate_images_trace st gen now req with htr | ⟨w, hgt, hps, htr⟩
  · rw [htr] at h
    exact absurd h (List.not_mem_nil call)
  · rw [htr] at h
    rcases List.mem_singleton.mp h with rfl
    rfl

theorem C5_witness :
    ({ prompt := "p", num_images := 1, width := 64, height := 64,
        num_inference_steps := 50 } : GenerateCall).num_inference_steps =
      if ({ model := "m", prompt := "p", n := 1, size := "64x64", quality := "hd",
            response_format := "b64_json", style := "vivid" } :
          ImageGenerationRequest).quality = "hd" then 50 else 30 :=
  C5_quality_steps { pipelineLoaded := true, servedModelNames := [] }
    (fun _ => Except.error "boom") 0
    { model := "m", prompt := "p", n := 1, size := "64x64", quality := "hd",
      response_format := "b64_json", style := "vivid" }
    { prompt := "p", num_images := 1, width := 64, height := 64, num_inference_steps := 50 }
    (by decide)

/-- No branch of the invoke stage can produce a 404. -/
theorem generate_images_invoke_not_404 (gen : GenerateCall → Except String (List Image))
    (now : Nat) (fmt : String) (call : GenerateCall) (d : String) :
    (generate_images_invoke gen now fmt call).1 ≠ HandlerResult.httpError 404 d := by
  cases hg : gen call with
  | error e =>
    rw [generate_images_invoke_gen_error gen now fmt call e hg]
    simp
  | ok images =>
    cases he : encodeImages fmt images with
    | error e =>
      obtain ⟨s, dd⟩ := e
      have hse := encodeImages_error fmt images (s, dd) he
      injection hse with hs hd
      subst hs
      rw [generate_images_invoke_encode_error gen now fmt call images 400 dd hg he]
      simp
    | ok ds =>
      rw [generate_images_invoke_encode_ok gen now fmt call images ds hg he]
      simp

/-- Claim C6: with the runtime loaded, a non-empty served-model registry is an
allow-list — a request whose model is not a member gets 404 and the runtime is
never invoked; with an empty registry no request can be answered 404. -/
theorem C6_model_allowlist (st : ServerState)
    (gen : GenerateCall → Except String (List Image)) (now : Nat)
    (req : ImageGenerationRequest) :
    (st.pipelineLoaded = true → st.servedModelNames ≠ [] →
      req.model ∉ st.servedModelNames →
      (generate_images st gen now req).1 =
        HandlerResult.httpError 404
          ("Model \x27" ++ req.model ++ "\x27 not found. Available: " ++
            pyListRepr st.servedModelNames) ∧
      (generate_images st gen now req).2 = []) ∧
    (st.servedModelNames = [] →
      ∀ d : String, (generate_images st gen now req).1 ≠ HandlerResult.httpError 404 d) := by
  constructor
  · intro hl hne hmem
    rw [generate_images_unknown_model st gen now req (by simp [hl]) ⟨hne, hmem⟩]
    exact ⟨rfl, rfl⟩
  · intro hempty d
    by_cases h1 : st.pipelineLoaded = false
    · rw [generate_images_not_loaded st gen now req h1]
      simp
    · have h2 : ¬ (st.servedModelNames ≠ [] ∧ req.model ∉ st.servedModelNames) := by
        simp [hempty]
      cases hps : parse_size req.size with
      | error e =>
        rw [generate_images_bad_size st gen now req e h1 h2 hps]
        simp
      | ok wh =>
        obtain ⟨w, hgt⟩ := wh
        rw [generate_images_ok_case st gen now req w hgt h1 h2 hps]
        exact generate_images_invoke_not_404 gen now req.response_format _ d

theorem C6_witness :
    (generate_images { pipelineLoaded := true, servedModelNames := ["m1"] }
        (fun _ => Except.error "boom") 0
        { model := "m2", prompt := "p", n := 1, size := "64x64", quality := "standard",
          response_format := "b64_json", style := "vivid" }).1 =
      HandlerResult.httpError 404
        ("Model \x27" ++ "m2" ++ "\x27 not found. Available: " ++ pyListRepr ["m1"]) ∧
    (generate_images { pipelineLoaded := true, servedModelNames := ["m1"] }
        (fun _ => Except.error "boom") 0
        { model := "m2", prompt := "p", n := 1, size := "64x64", quality := "standard",
          response_format := "b64_json", style := "vivid" }).2 = [] :=
  (C6_model_allowlist { pipelineLoaded := true, servedModelNames := ["m1"] }
    (fun _ => Except.error "boom") 0
    { model := "m2", prompt := "p", n := 1, size := "64x64", quality := "standard",
      response_format := "b64_json", style := "vivid" }).1
    rfl (by decide) (by decide)

/-- Claim C7: for every 200 response, assuming the model collaborator honors
its contract of returning `num_images` images, the `data` array has exactly
`n` entries — one base64-PNG entry per generated image, in generation
order. -/
theorem C7_data_length_and_order (st : ServerState)
    (gen : GenerateCall → Except String (List Image)) (now : Nat)
    (req : ImageGenerationRequest) (resp : ImageGenerationResponse)
    (hcontract : ∀ c imgs, gen c = Except.ok imgs → imgs.length = c.num_images)
    (h : (generate_images st gen now req).1 = HandlerResult.ok resp) :
    resp.data.length = req.n ∧
    ∃ call imgs, (generate_images st gen now req).2 = [call] ∧
      gen call = Except.ok imgs ∧ call.num_images = req.n ∧
      resp.data = imgs.map encodeImage := by
  by_cases h1 : st.pipelineLoaded = false
  · rw [generate_images_not_loaded st gen now req h1] at h
    exact absurd h (by simp)
  · by_cases h2 : st.servedModelNames ≠ [] ∧ req.model ∉ st.servedModelNames
    · rw [generate_images_unknown_model st gen now req h1 h2] at h
      exact absurd h (by simp)
    · cases hps : parse_size req.size with
      | error e =>
        rw [generate_images_bad_size st gen now req e h1 h2 hps] at h
        exact absurd h (by simp)
      | ok wh =>
        obtain ⟨w, hgt⟩ := wh
        rw [generate_images_ok_case st gen now req w hgt h1 h2 hps] at h ⊢
        cases hg : gen ⟨req.prompt, req.n, w, hgt, if req.quality = "hd" then 50 else 30⟩ with
        | error e =>
          rw [generate_images_invoke_gen_error gen now req.response_format _ e hg] at h
          exact absurd h (by simp)
        | ok imgs =>
          cases he : encodeImages req.response_format imgs with
          | error ee =>
            obtain ⟨s, d⟩ := ee
            rw [generate_images_invoke_encode_error gen now req.response_format _ imgs s d
                  hg he] at h
            exact absurd h (by simp)
          | ok ds =>
            rw [generate_images_invoke_encode_ok gen now req.response_format _ imgs ds
                  hg he] at h
            injection h with h3
            have hds : ds = imgs.map encodeImage := encodeImages_ok _ imgs ds he
            have hdata : resp.data = imgs.map encodeImage := by
              rw [← h3, ← hds]
            have hlen2 : imgs.length =
                ({ prompt := req.prompt, num_images := req.n, width := w, height := hgt,
                   num_inference_steps := if req.quality = "hd" then 50 else 30 } :
                  GenerateCall).num_images := hcontract _ imgs hg
            have hn2 : resp.data.length = req.n := by
              rw [hdata, List.length_map, hlen2]
            exact ⟨hn2,
              { prompt := req.prompt, num_images := req.n, width := w, height := hgt,
                num_inference_steps := if req.quality = "hd" then 50 else 30 },
              imgs, generate_images_invoke_trace gen now req.response_format _, hg, rfl, hdata⟩

theorem C7_witness :
    ({ created := 7, data := [{ b64_json := some "AQID" }, { b64_json := some "AQID" }] } :
        ImageGenerationResponse).data.length = 2 ∧
    ∃ call imgs,
      (generate_images { pipelineLoaded := true, servedModelNames := [] }
          (fun c => Except.ok (List.replicate c.num_images { pngBytes := [1, 2, 3] })) 7
          { model := "m", prompt := "p", n := 2, size := "64x64", quality := "standard",
            response_format := "b64_json", style := "vivid" }).2 = [call] ∧
      (Except.ok (List.replicate call.num_images ({ pngBytes := [1, 2, 3] } : Image)) :
          Except String (List Image)) = Except.ok imgs ∧
      call.num_images = 2 ∧
      ({ created := 7, data := [{ b64_json := some "AQID" }, { b64_json := some "AQID" }] } :
          ImageGenerationResponse).data = imgs.map encodeImage :=
  C7_data_length_and_order { pipelineLoaded := true, servedModelNames := [] }
    (fun c => Except.ok (List.replicate c.num_images { pngBytes := [1, 2, 3] })) 7
    { model := "m", prompt := "p", n := 2, size := "64x64", quality := "standard",
      response_format := "b64_json", style := "vivid" }
    { created := 7, data := [{ b64_json := some "AQID" }, { b64_json := some "AQID" }] }
    (fun c imgs h => by
      have h2 : List.replicate c.num_images ({ pngBytes := [1, 2, 3] } : Image) = imgs := by
        injection h
      rw [← h2]
      exact List.length_replicate _ _)
    (by decide)

/-- Claim C8 is false on the code at this input: a request with size `"0x0"`
passes validation and the runtime is invoked with width = 0 and height = 0 —
the translator never checks positivity of the parsed dimensions. -/
theorem C8_counterexample :
    (generate_images { pipelineLoaded := true, servedModelNames := [] }
        (fun _ => Except.error "boom") 0
        { model := "m", prompt := "p", n := 1, size := "0x0", quality := "standard",
          response_format := "b64_json", style := "vivid" }).2 =
      [{ prompt := "p", num_images := 1, width := 0, height := 0,
         num_inference_steps := 30 }] ∧
    ((generate_images { pipelineLoaded := true, servedModelNames := [] }
        (fun _ => Except.error "boom") 0
        { model := "m", prompt := "p", n := 1, size := "0x0", quality := "standard",
          response_format := "b64_json", style := "vivid" }).2.all
      (fun c => decide (0 < c.width))) = false := by
  decide

/-- Claim C8 (amended): every call the handler makes to the runtime has
`num_images` between 1 and 10 (given the pydantic bound on `n`) and a
strictly positive step count, and its width/height are exactly the values
`parse_size` returned for the request — which are NOT checked for
positivity. -/
theorem C8_generate_call_bounds (st : ServerState)
    (gen : GenerateCall → Except String (List Image)) (now : Nat)
    (req : ImageGenerationRequest) (call : GenerateCall)
    (hn1 : 1 ≤ req.n) (hn10 : req.n ≤ 10)
    (h : call ∈ (generate_images st gen now req).2) :
    1 ≤ call.num_images ∧ call.num_images ≤ 10 ∧ 0 < call.num_inference_steps ∧
    parse_size req.size = Except.ok (call.width, call.height) := by
  rcases generate_images_trace st gen now req with htr | ⟨w, hgt, hps, htr⟩
  · rw [htr] at h
    exact absurd h (List.not_mem_nil call)
  · rw [htr] at h
    rcases List.mem_singleton.mp h with rfl
    refine ⟨hn1, hn10, ?_, hps⟩
    by_cases hq : req.quality = "hd" <;> simp [hq]

theorem C8_witness :
    1 ≤ 1 ∧ 1 ≤ 10 ∧ 0 < 30 ∧ parse_size "64x64" = Except.ok (64, 64) :=
  C8_generate_call_bounds { pipelineLoaded := true, servedModelNames := [] }
    (fun _ => Except.error "boom") 0
    { model := "m", prompt := "p", n := 1, size := "64x64", quality := "standard",
      response_format := "b64_json", style := "vivid" }
    { prompt := "p", num_images := 1, width := 64, height := 64, num_inference_steps := 30 }
    (by decide) (by decide) (by decide)

theorem wrapLoadFailure_error (modelPath : String) (r : Except String PipelineHandle)
    (msg : String) (h : wrapLoadFailure modelPath r = Except.error msg) :
    ∃ cause, msg = "Failed to load diffusers model from " ++ modelPath ++ ": " ++ cause := by
  cases r with
  | ok p => exact absurd h (by simp [wrapLoadFailure])
  | error e =>
    refine ⟨e, ?_⟩
    unfold wrapLoadFailure at h
    injection h with h2
    exact h2.symm

/-- Claim C9: with a manifest present the generic auto-detecting loader is
used; with it absent the first family loader is attempted and on failure the
second; and every load failure surfaces as a single RuntimeError whose
message is `"Failed to load diffusers model from <path>: <cause>"`. -/
theorem C9_load_policy (modelPath : String) (env : LoadEnv) :
    (env.manifestExists = true →
      load_pipeline modelPath env = wrapLoadFailure modelPath env.loadGeneric) ∧
    (env.manifestExists = false →
      (∀ p, env.loadSDXL = Except.ok p → load_pipeline modelPath env = Except.ok p) ∧
      (∀ e, env.loadSDXL = Except.error e →
        load_pipeline modelPath env = wrapLoadFailure modelPath env.loadSD)) ∧
    (∀ msg, load_pipeline modelPath env = Except.error msg →
      ∃ cause, msg = "Failed to load diffusers model from " ++ modelPath ++ ": " ++ cause) := by
  refine ⟨?_, ?_, ?_⟩
  · intro hm
    unfold load_pipeline
    rw [if_pos hm]
  · intro hm
    constructor
    · intro p hp
      unfold load_pipeline
      rw [if_neg (by simp [hm]), hp]
      rfl
    · intro e hev
      unfold load_pipeline
      rw [if_neg (by simp [hm]), hev]
  · intro msg h
    exact wrapLoadFailure_error modelPath _ msg h

theorem C9_witness :
    ∃ cause, "Failed to load diffusers model from /m: boom" =
      "Failed to load diffusers model from " ++ "/m" ++ ": " ++ cause :=
  (C9_load_policy "/m"
    { manifestExists := true, loadGeneric := Except.error "boom",
      loadSDXL := Except.ok { id := 0 }, loadSD := Except.ok { id := 0 } }).2.2
    "Failed to load diffusers model from /m: boom" (by decide)

/-- Claim C10: every generation call the HTTP handler triggers reaches the
underlying model with generator absent (no seed — non-deterministic),
negative_prompt absent, and the fixed default guidance scale 7.5: the kwargs
built for a server-originated call are fully determined by the request. -/
theorem C10_default_generation_params (st : ServerState)
    (gen : GenerateCall → Except String (List Image)) (now : Nat)
    (req : ImageGenerationRequest) (call : GenerateCall)
    (h : call ∈ (generate_images st gen now req).2) :
    serverCallKwargs call =
      { prompt := req.prompt, num_images_per_prompt := req.n,
        width := call.width, height := call.height,
        num_inference_steps := if req.quality = "hd" then 50 else 30,
        guidance_scale := 15 / 2, generator := none, negative_prompt := none } := by
  rcases generate_images_trace st gen now req with htr | ⟨w, hgt, hps, htr⟩
  · rw [htr] at h
    exact absurd h (List.not_mem_nil call)
  · rw [htr] at h
    rcases List.mem_singleton.mp h with rfl
    rfl

theorem C10_witness :
    serverCallKwargs
        { prompt := "p", num_images := 1, width := 64, height := 64,
          num_inference_steps := 30 } =
      { prompt := "p", num_images_per_prompt := 1, width := 64, height := 64,
        num_inference_steps := 30, guidance_scale := 15 / 2, generator := none,
        negative_prompt := none } :=
  C10_default_generation_params { pipelineLoaded := true, servedModelNames := [] }
    (fun _ => Except.error "boom") 0
    { model := "m", prompt := "p", n := 1, size := "64x64", quality := "standard",
      response_format := "b64_json", style := "vivid" }
    { prompt := "p", num_images := 1, width := 64, height := 64, num_inference_steps := 30 }
    (by decide)
